import Mathlib

/-!
# uio_dev: userspace access to a UIO register block

A shallow embedding of `src/uio_dev.c` / `src/uio_dev.h`.

Conventions of the embedding

* Target ABI: LP64 Linux.  `int` and `int32_t` are 32-bit two's complement,
  `size_t` is 64-bit unsigned, `ssize_t` is 64-bit signed.  C integers are
  `Int` / `Nat`; every place where the C code wraps is written with an explicit
  modulus.
* The process address space `Mem` is byte-addressed and records which
  addresses are mapped.  A 32-bit access is four byte accesses (little-endian,
  the byte order of the ARM and x86 targets).  An access to a byte that is not
  mapped raises a fault: the call does not return and stores nothing.  Each
  register operation reports the byte addresses it accesses, so that "performs
  no memory access" and "stays inside the region" are statements about that
  list.
* System calls and libc calls are answered by an explicit environment record;
  every call that is made is appended to a trace of events.
* The `fprintf(stderr, ...)` / `perror` diagnostics and the blocks under
  `#ifdef UIO_DEBUG` have no effect on the handle or on the results and are
  not part of the embedding.
-/

namespace UioDev

/-! ## C integer types -/

/-- Width of `size_t` / `ssize_t` / pointers in bits (LP64). -/
def SIZE_BITS : Nat := 64

/-- Largest value of `size_t`. -/
def SIZE_MAX : Nat := 2 ^ SIZE_BITS - 1

/-- Largest value of `int`. -/
def INT_MAX : Int := 2 ^ 31 - 1

/-- Largest value of `uint32_t`. -/
def UINT32_MAX : Nat := 2 ^ 32 - 1

/-- Conversion of an integer value to `size_t` (reduction modulo `2 ^ 64`). -/
def toSizeT (x : Int) : Nat := (x % (2 : Int) ^ SIZE_BITS).toNat

/-- Conversion of an integer value to `uint32_t` (reduction modulo `2 ^ 32`). -/
def toUInt32 (x : Int) : Nat := (x % (2 : Int) ^ 32).toNat

/-- Conversion of a `uint32_t` value to `int`: the value itself when it is
representable, otherwise the two's complement reading of the same bits. -/
def toInt32 (x : Nat) : Int :=
  if x % 2 ^ 32 < 2 ^ 31 then ((x % 2 ^ 32 : Nat) : Int) else ((x % 2 ^ 32 : Nat) : Int) - 2 ^ 32

/-! ## Error codes: `enum UIO_ERROR` of `uio_dev.h`

The first enumerator is given the value `-12`; each following enumerator is
one more than its predecessor. -/

def UIO_UMASK_IRQ_FAILED : Int := -12
def UIO_MASK_IRQ_FAILED : Int := UIO_UMASK_IRQ_FAILED + 1
def UIO_ACCESS_VIOLATION : Int := UIO_MASK_IRQ_FAILED + 1
def UIO_MMAP_FAILED : Int := UIO_ACCESS_VIOLATION + 1
def UIO_MMAP_OFFSET_ERROR : Int := UIO_MMAP_FAILED + 1
def UIO_MMAP_SIZE_ERROR : Int := UIO_MMAP_OFFSET_ERROR + 1
def UIO_FILE_READ_ERROR : Int := UIO_MMAP_SIZE_ERROR + 1
def UIO_FD_OPEN_ERROR : Int := UIO_FILE_READ_ERROR + 1
def UIO_FNAME_ERROR : Int := UIO_FD_OPEN_ERROR + 1
def UIO_DEV_NULL : Int := UIO_FNAME_ERROR + 1
def UIO_ID_NEGATIVE : Int := UIO_DEV_NULL + 1

/-! ## System constants (from `<poll.h>`, `<sys/mman.h>`, `<stdio.h>`) -/

/-- The `POLLIN` event bit of `<poll.h>` on Linux. -/
def POLLIN : Int := 1

/-- The `MAP_FAILED` pointer, `(void *) -1`. -/
def MAP_FAILED : Nat := SIZE_MAX

/-- The `EOF` result of the formatted-input functions. -/
def EOF : Int := -1

/-! ## Data model -/

/-- The `struct pollfd` of `<poll.h>`. -/
structure pollfd where
  fd : Int
  events : Int
  revents : Int
  deriving DecidableEq, Repr

/-- The `uio_dev` struct of `uio_dev.h`.  `addr` is the `void *` as an
address, `len` the `size_t`, and `pfd` the pointer to the heap block holding
the `struct pollfd`: `none` is the null pointer, `some p` a block with
contents `p`. -/
structure uio_dev where
  fd : Int
  addr : Nat
  len : Nat
  mapped : Int
  pfd : Option pollfd
  deriving DecidableEq, Repr

/-! ## Memory -/

/-- The process address space: the byte held at each address, and whether the
address is mapped readable and writable.  An access to an address that is not
mapped raises a fault (`SIGSEGV`) and the call making it does not return. -/
structure Mem where
  byte : Nat → Nat
  valid : Nat → Bool

/-- Store of one byte. -/
def store8 (m : Mem) (a v : Nat) : Mem :=
  { m with byte := fun x => if x = a then v % 256 else m.byte x }

/-- Store of a `uint32_t` at byte address `a`. -/
def store32 (m : Mem) (a v : Nat) : Mem :=
  store8 (store8 (store8 (store8 m a v) (a + 1) (v / 256)) (a + 2) (v / 65536))
    (a + 3) (v / 16777216)

/-- Load of a `uint32_t` from byte address `a`. -/
def load32 (m : Mem) (a : Nat) : Nat :=
  m.byte a % 256 + 256 * (m.byte (a + 1) % 256) + 65536 * (m.byte (a + 2) % 256)
    + 16777216 * (m.byte (a + 3) % 256)

/-- The byte addresses of a 32-bit access at address `a`. -/
def word_bytes (a : Nat) : List Nat := [a, a + 1, a + 2, a + 3]

/-- All four bytes of the word at address `a` are mapped. -/
def accessible (m : Mem) (a : Nat) : Bool := (word_bytes a).all m.valid

/-! ## Register access: `uio_write`, `uio_read` -/

/-- The guard of `uio_write` and `uio_read`:
`offset < 0 || offset > dev->len - 1`.  The right operand is evaluated in
`size_t`: `dev->len - 1` wraps, and `offset` is converted to `size_t`. -/
def offset_rejected (dev : uio_dev) (offset : Int) : Bool :=
  decide (offset < 0) || decide (toSizeT offset > toSizeT ((dev.len : Int) - 1))

/-- What a call of `uio_write` leaves behind: the returned `int` (`none` when
the store faults and the call does not return), the memory, and the byte
addresses of the store. -/
structure WriteResult where
  ret : Option Int
  mem : Mem
  touched : List Nat

/-- What a call of `uio_read` leaves behind: the returned `int` (`none` when
the load faults and the call does not return), the value stored into `*data`
(`none` when nothing is stored), and the byte addresses of the load. -/
structure ReadResult where
  ret : Option Int
  data : Option Nat
  touched : List Nat

/-- The function `uio_write` of `uio_dev.c`.  Past the guard, the statement
`*((uint32_t *)(dev->addr + offset)) = data` stores the word when its four
bytes are mapped and faults otherwise. -/
def uio_write (dev : uio_dev) (mem : Mem) (offset : Int) (data : Nat) : WriteResult :=
  if offset_rejected dev offset then
    { ret := some UIO_ACCESS_VIOLATION, mem := mem, touched := [] }
  else if accessible mem (dev.addr + offset.toNat) then
    { ret := some 1
      mem := store32 mem (dev.addr + offset.toNat) data
      touched := word_bytes (dev.addr + offset.toNat) }
  else
    { ret := none, mem := mem, touched := word_bytes (dev.addr + offset.toNat) }

/-- The function `uio_read` of `uio_dev.c`.  Past the guard, the statement
`*data = *((uint32_t *)(dev->addr + offset))` loads the word when its four
bytes are mapped and faults otherwise. -/
def uio_read (dev : uio_dev) (mem : Mem) (offset : Int) : ReadResult :=
  if offset_rejected dev offset then
    { ret := some UIO_ACCESS_VIOLATION, data := none, touched := [] }
  else if accessible mem (dev.addr + offset.toNat) then
    { ret := some 1
      data := some (load32 mem (dev.addr + offset.toNat))
      touched := word_bytes (dev.addr + offset.toNat) }
  else
    { ret := none, data := none, touched := word_bytes (dev.addr + offset.toNat) }

/-- The byte addresses that belong to the region of `dev->len` bytes starting
at `dev->addr`. -/
def in_region (dev : uio_dev) (a : Nat) : Prop := dev.addr ≤ a ∧ a < dev.addr + dev.len

instance (dev : uio_dev) (a : Nat) : Decidable (in_region dev a) := by
  unfold in_region; infer_instance

/-- The handle is over a mapped region of `dev->len` bytes: every byte of the
region is mapped. -/
def region_mapped (dev : uio_dev) (mem : Mem) : Prop :=
  ∀ a, in_region dev a → mem.valid a = true

/-! ## Library calls made by `uio_init` -/

/-- What `snprintf(fname, size, fmt, uio_id)` leaves behind for a format
`pre%dpost`: the buffer contents (cut to `size - 1` characters) and the
returned `int`, the length of the complete formatted text. -/
structure Formatted where
  text : String
  ret : Int
  deriving DecidableEq, Repr

/-- The call `snprintf(fname, size, "pre%dpost", uio_id)`. -/
def snprintf (size : Nat) (pre : String) (uio_id : Int) (post : String) : Formatted :=
  let s := pre ++ toString uio_id ++ post
  { text := String.mk (s.data.take (size - 1)), ret := (s.length : Int) }

/-- Outcome of a formatted read with one conversion,
`fscanf(fp, "0x%lx", &size)` or `fscanf(fp, "0x%x", &offset)`, on a stream. -/
inductive Scan where
  /-- Input failure before the conversion: `EOF` is returned, nothing is stored. -/
  | eof
  /-- Matching failure: zero items are converted, nothing is stored. -/
  | nomatch
  /-- One item is converted and `v` is stored in the argument. -/
  | item (v : Int)
  deriving DecidableEq, Repr

/-- The `int` returned by the formatted read. -/
def Scan.ret : Scan → Int
  | Scan.eof => EOF
  | Scan.nomatch => 0
  | Scan.item _ => 1

/-- The value of the argument variable after the formatted read, given its
value `old` before the call. -/
def Scan.assign : Scan → Int → Int
  | Scan.eof, old => old
  | Scan.nomatch, old => old
  | Scan.item v, _ => v

/-- The answers of the system to the calls of `uio_init`. -/
structure Env where
  /-- `malloc(sizeof(struct pollfd))`: `none` is a null result, `some p` a
  fresh block whose (indeterminate) contents are `p`. -/
  malloc : Option pollfd
  /-- `open(fname, O_RDWR)`. -/
  open_ : String → Int
  /-- `fopen(fname, "r")`: `none` is a null result, `some s` a stream on
  which the formatted read has outcome `s`. -/
  fopen : String → Option Scan
  /-- The indeterminate value of the local `size` before it is assigned. -/
  size_init : Int
  /-- `mmap(NULL, length, PROT_READ | PROT_WRITE, MAP_SHARED, fd, offset)`. -/
  mmap : Nat → Int → Int → Nat

/-- The calls that acquire or release a resource or perform I/O. -/
inductive Event where
  | malloc (result : Option pollfd)
  | open_ (path : String) (result : Int)
  | fopen (path : String) (ok : Bool)
  | fscanf (ret : Int)
  | fclose
  | mmap (length : Nat) (fd : Int) (offset : Int) (result : Nat)
  | munmap (addr : Nat) (length : Nat)
  | free
  | close (fd : Int)
  deriving DecidableEq, Repr

/-- What a call of `uio_init` leaves behind: the returned `int`, the handle,
and the calls made, in order. -/
structure InitResult where
  ret : Int
  dev : uio_dev
  trace : List Event
  deriving DecidableEq, Repr

/-! ## `uio_init` -/

/-- The function `uio_init` of `uio_dev.c`, called on a handle `dev` held in
caller-owned storage (the pointer `dev` is not null, so the test
`dev == NULL`, which comes after `dev` has been written through, is never
taken). -/
def uio_init (env : Env) (dev : uio_dev) (uio_id : Int) : InitResult :=
  match env.malloc with
  | none => { ret := -1, dev := { dev with pfd := none }, trace := [Event.malloc none] }
  | some blk =>
    let dev1 := { dev with pfd := some { blk with events := POLLIN } }
    let t1 := [Event.malloc (some blk)]
    if uio_id < 0 then { ret := UIO_ID_NEGATIVE, dev := dev1, trace := t1 } else
    let dev2 := { dev1 with mapped := 0 }
    let f1 := snprintf 256 "/dev/uio" uio_id ""
    if f1.ret < 0 then { ret := UIO_FNAME_ERROR, dev := dev2, trace := t1 } else
    let fd := env.open_ f1.text
    let dev3 := { dev2 with fd := fd }
    let t2 := t1 ++ [Event.open_ f1.text fd]
    if fd < 0 then { ret := UIO_FD_OPEN_ERROR, dev := dev3, trace := t2 } else
    let f2 := snprintf 256 "/sys/class/uio/uio" uio_id "/maps/map0/size"
    if f2.ret < 0 then { ret := UIO_FNAME_ERROR, dev := dev3, trace := t2 } else
    match env.fopen f2.text with
    | none =>
      { ret := UIO_FD_OPEN_ERROR, dev := dev3, trace := t2 ++ [Event.fopen f2.text false] }
    | some sc =>
      let ret := sc.ret
      let size := sc.assign env.size_init
      let t3 := t2 ++ [Event.fopen f2.text true, Event.fscanf ret, Event.fclose]
      if ret < 0 then { ret := UIO_FILE_READ_ERROR, dev := dev3, trace := t3 } else
      if size < 0 ∨ size > 0x10000 then
        { ret := UIO_MMAP_SIZE_ERROR, dev := dev3, trace := t3 } else
      let dev4 := { dev3 with len := toSizeT size }
      let f3 := snprintf 256 "/sys/class/uio/uio" uio_id "/maps/map0/offset"
      if f3.ret < 0 then { ret := UIO_FNAME_ERROR, dev := dev4, trace := t3 } else
      match env.fopen f3.text with
      | none =>
        { ret := UIO_FD_OPEN_ERROR, dev := dev4, trace := t3 ++ [Event.fopen f3.text false] }
      | some sc2 =>
        let ret2 := sc2.ret
        let offset := sc2.assign 0
        let t4 := t3 ++ [Event.fopen f3.text true, Event.fscanf ret2, Event.fclose]
        if ret2 < 0 then { ret := UIO_FILE_READ_ERROR, dev := dev4, trace := t4 } else
        if offset < 0 ∨ offset > 0xffff then
          { ret := UIO_MMAP_OFFSET_ERROR, dev := dev4, trace := t4 } else
        let addr := env.mmap (toSizeT size) fd offset
        let dev5 := { dev4 with addr := addr }
        let t5 := t4 ++ [Event.mmap (toSizeT size) fd offset addr]
        if addr = MAP_FAILED then { ret := UIO_MMAP_FAILED, dev := dev5, trace := t5 } else
        { ret := 1
          dev := { dev5 with
            pfd := some { blk with events := POLLIN, fd := fd }
            mapped := 1
            len := 0x1000 }
          trace := t5 }

/-- The function `uio_destroy` of `uio_dev.c`: the calls it makes. -/
def uio_destroy (dev : uio_dev) : List Event :=
  (if dev.mapped ≠ 0 then [Event.munmap dev.addr dev.len] else [])
    ++ [Event.free, Event.close dev.fd]

/-! ## `uio_wait_irq` -/

/-- The answers of the system to the calls of `uio_wait_irq`. -/
structure WaitEnv where
  /-- `poll(dev->pfd, 1, tout_ms)`. -/
  poll : Option pollfd → Int → Int
  /-- The contents of the `uint32_t info` after `read(dev->fd, &info, 4)`. -/
  read_info : Int → Nat

/-- The function `uio_wait_irq` of `uio_dev.c`.  `info + 1` is computed in
`uint32_t` and converted to the `int` that is returned. -/
def uio_wait_irq (env : WaitEnv) (dev : uio_dev) (tout_ms : Int) : Int :=
  let rv := env.poll dev.pfd tout_ms
  if rv ≥ 1 then
    let info := env.read_info dev.fd
    toInt32 (toUInt32 ((info : Int) + 1))
  else if rv = 0 then 0
  else -1

/-! ## Observations on traces -/

/-- The calls that release a resource: `free`, `close` and `munmap`, made by
`uio_destroy`. -/
def Event.is_release : Event → Bool
  | Event.free => true
  | Event.close _ => true
  | Event.munmap _ _ => true
  | _ => false

/-- The calls of `mmap` that return a mapping. -/
def Event.is_mapping : Event → Bool
  | Event.mmap _ _ _ result => decide (result ≠ MAP_FAILED)
  | _ => false

/-- The calls of `mmap`. -/
def Event.is_mmap : Event → Bool
  | Event.mmap _ _ _ _ => true
  | _ => false

/-! ## Concrete handles, memories and environments used in the instances -/

/-- A caller-owned handle before any call: zeroed storage. -/
def dev_zero : uio_dev := { fd := 0, addr := 0, len := 0, mapped := 0, pfd := none }

/-- A handle over a region of 4096 bytes at address 65536. -/
def dev_page : uio_dev :=
  { fd := 3, addr := 65536, len := 4096, mapped := 1
    pfd := some { fd := 3, events := POLLIN, revents := 0 } }

/-- A memory in which every address is mapped and every byte is zero. -/
def mem_flat : Mem := { byte := fun _ => 0, valid := fun _ => true }

/-- A memory in which exactly the 4096 bytes from address 65536 on are mapped
and every byte is zero. -/
def mem_page : Mem :=
  { byte := fun _ => 0, valid := fun a => decide (65536 ≤ a ∧ a < 65536 + 4096) }

/-- The stream of a descriptor file: size `0x1000`, offset `0x0`, nothing
else can be opened. -/
def files_ok (path : String) : Option Scan :=
  if path = "/sys/class/uio/uio0/maps/map0/size" then some (Scan.item 4096)
  else if path = "/sys/class/uio/uio0/maps/map0/offset" then some (Scan.item 0)
  else none

/-- An environment in which every call of `uio_init` for device 0 succeeds. -/
def env_ok : Env :=
  { malloc := some { fd := 0, events := 0, revents := 0 }
    open_ := fun path => if path = "/dev/uio0" then 3 else -1
    fopen := files_ok
    size_init := 0
    mmap := fun _ _ _ => 65536 }

/-- An environment in which the allocation fails. -/
def env_no_memory : Env := { env_ok with malloc := none }

/-- An environment in which the device file cannot be opened. -/
def env_no_device : Env := { env_ok with open_ := fun _ => -1 }

/-- An environment in which the offset descriptor holds text that does not
match the format (the formatted read converts zero items). -/
def env_offset_nomatch : Env :=
  { env_ok with
    fopen := fun path =>
      if path = "/sys/class/uio/uio0/maps/map0/size" then some (Scan.item 4096)
      else if path = "/sys/class/uio/uio0/maps/map0/offset" then some Scan.nomatch
      else none }

/-- An environment in which the size descriptor holds text that does not
match the format, the local `size` holding 256 before the read. -/
def env_size_nomatch : Env :=
  { env_ok with
    fopen := fun path =>
      if path = "/sys/class/uio/uio0/maps/map0/size" then some Scan.nomatch
      else if path = "/sys/class/uio/uio0/maps/map0/offset" then some (Scan.item 0)
      else none
    size_init := 256 }

/-- An environment in which the size descriptor reports `0x20000`. -/
def env_big_size : Env :=
  { env_ok with
    fopen := fun path =>
      if path = "/sys/class/uio/uio0/maps/map0/size" then some (Scan.item 131072)
      else if path = "/sys/class/uio/uio0/maps/map0/offset" then some (Scan.item 0)
      else none }

/-! # Theorems -/

/-! ## Facts about the C integer conversions -/

/-- A value in the range of `size_t` is unchanged by the conversion. -/
theorem toSizeT_of_nonneg (x : Int) (h0 : 0 ≤ x) (h1 : x ≤ (SIZE_MAX : Int)) :
    toSizeT x = x.toNat := by
  simp only [toSizeT, SIZE_MAX, SIZE_BITS] at *
  norm_num at *
  omega

/-- The guard rejects every negative offset. -/
theorem offset_rejected_of_neg (dev : uio_dev) (o : Int) (h : o < 0) :
    offset_rejected dev o = true := by
  simp [offset_rejected, h]

/-- The guard rejects every `int` offset at or above a non-zero `len`. -/
theorem offset_rejected_of_ge (dev : uio_dev) (o : Int) (hlen : dev.len ≤ SIZE_MAX)
    (h1 : 1 ≤ dev.len) (h : (dev.len : Int) ≤ o) (hmax : o ≤ INT_MAX) :
    offset_rejected dev o = true := by
  simp only [offset_rejected, toSizeT, SIZE_MAX, SIZE_BITS, INT_MAX] at *
  norm_num at *
  omega

/-- The guard accepts every offset from `0` up to `len - 1`. -/
theorem offset_rejected_of_lt (dev : uio_dev) (o : Int) (hlen : dev.len ≤ SIZE_MAX)
    (h0 : 0 ≤ o) (h : o < (dev.len : Int)) :
    offset_rejected dev o = false := by
  simp only [offset_rejected, toSizeT, SIZE_MAX, SIZE_BITS] at *
  norm_num at *
  omega

/-- With `len = 0` the subtraction `len - 1` wraps to `SIZE_MAX` and the guard
accepts every non-negative offset. -/
theorem offset_rejected_len_zero (dev : uio_dev) (o : Int) (hlen : dev.len = 0)
    (h0 : 0 ≤ o) : offset_rejected dev o = false := by
  simp only [offset_rejected, toSizeT, SIZE_BITS, hlen] at *
  norm_num
  omega

/-- A 32-bit load returns the value of the preceding 32-bit store at the same
address. -/
theorem load32_store32 (m : Mem) (a v : Nat) (hv : v ≤ UINT32_MAX) :
    load32 (store32 m a v) a = v := by
  simp [load32, store32, store8, UINT32_MAX] at *
  omega

/-- A store changes no mapping. -/
theorem accessible_store32 (m : Mem) (a v b : Nat) :
    accessible (store32 m a v) b = accessible m b := rfl

/-- A word that lies inside a mapped region is accessible. -/
theorem accessible_of_region (dev : uio_dev) (mem : Mem) (o : Int)
    (hm : region_mapped dev mem) (h0 : 0 ≤ o) (h4 : o + 4 ≤ (dev.len : Int)) :
    accessible mem (dev.addr + o.toNat) = true := by
  have hb : ∀ i, i < 4 → mem.valid (dev.addr + o.toNat + i) = true := by
    intro i hi
    apply hm
    unfold in_region
    omega
  simp [accessible, word_bytes, hb 1, hb 2, hb 3]
  simpa using hb 0 (by decide)

/-- The result of `snprintf` is never negative, so the `UIO_FNAME_ERROR`
returns of `uio_init` are never taken. -/
theorem snprintf_ret_nonneg (size : Nat) (pre : String) (uio_id : Int) (post : String) :
    ¬ (snprintf size pre uio_id post).ret < 0 := by
  simp [snprintf]
  omega

/-! ## Register access -/

/-- Out-of-range offsets of a handle with `len >= 1`, and negative offsets of
any handle, are rejected by `uio_write` and `uio_read` without any access. -/
theorem uio_access_rejected (dev : uio_dev) (mem : Mem) (o : Int) (v : Nat)
    (hlen : dev.len ≤ SIZE_MAX) (hmax : o ≤ INT_MAX)
    (h : o < 0 ∨ (1 ≤ dev.len ∧ (dev.len : Int) ≤ o)) :
    (uio_write dev mem o v).ret = some UIO_ACCESS_VIOLATION
    ∧ (uio_write dev mem o v).touched = []
    ∧ (uio_write dev mem o v).mem = mem
    ∧ (uio_read dev mem o).ret = some UIO_ACCESS_VIOLATION
    ∧ (uio_read dev mem o).touched = []
    ∧ (uio_read dev mem o).data = none := by
  have hr : offset_rejected dev o = true := by
    rcases h with h | ⟨h1, h2⟩
    · exact offset_rejected_of_neg dev o h
    · exact offset_rejected_of_ge dev o hlen h1 h2 hmax
  simp [uio_write, uio_read, hr]

/-- What `uio_write` and `uio_read` do with an offset that the guard accepts:
the four bytes at `addr + offset` are accessed; the call returns 1 when they
are mapped and faults otherwise. -/
theorem uio_access_accepted (dev : uio_dev) (mem : Mem) (o : Int) (v : Nat)
    (hr : offset_rejected dev o = false) :
    (uio_write dev mem o v).touched = word_bytes (dev.addr + o.toNat)
    ∧ (uio_read dev mem o).touched = word_bytes (dev.addr + o.toNat)
    ∧ (uio_write dev mem o v).ret
        = (if accessible mem (dev.addr + o.toNat) then some 1 else none)
    ∧ (uio_read dev mem o).ret
        = (if accessible mem (dev.addr + o.toNat) then some 1 else none)
    ∧ (uio_write dev mem o v).mem
        = (if accessible mem (dev.addr + o.toNat) then store32 mem (dev.addr + o.toNat) v
           else mem)
    ∧ (uio_read dev mem o).data
        = (if accessible mem (dev.addr + o.toNat) then some (load32 mem (dev.addr + o.toNat))
           else none) := by
  cases hacc : accessible mem (dev.addr + o.toNat) <;> simp [uio_write, uio_read, hr, hacc]

/-- An offset with which `uio_write` or `uio_read` returns 1 is non-negative
and, for a handle with `len >= 1`, addresses a first byte inside the region. -/
theorem uio_access_accepted_first_byte (dev : uio_dev) (mem : Mem) (o : Int) (v : Nat)
    (hlen : dev.len ≤ SIZE_MAX) (hmax : o ≤ INT_MAX) (h1 : 1 ≤ dev.len)
    (h : (uio_write dev mem o v).ret = some 1 ∨ (uio_read dev mem o).ret = some 1) :
    0 ≤ o ∧ o < (dev.len : Int) := by
  by_contra hc
  have hout : o < 0 ∨ (1 ≤ dev.len ∧ (dev.len : Int) ≤ o) := by omega
  have hr := uio_access_rejected dev mem o v hlen hmax hout
  rcases h with h | h
  · rw [hr.1] at h
    exact absurd h (by decide)
  · rw [hr.2.2.2.1] at h
    exact absurd h (by decide)

/-- A write followed by a read at the same accepted offset returns the value
written, whenever the four bytes of the word are mapped. -/
theorem uio_write_read_of_accessible (dev : uio_dev) (mem : Mem) (o : Int) (v : Nat)
    (hlen : dev.len ≤ SIZE_MAX) (h0 : 0 ≤ o) (h1 : o < (dev.len : Int))
    (hacc : accessible mem (dev.addr + o.toNat) = true) (hv : v ≤ UINT32_MAX) :
    (uio_write dev mem o v).ret = some 1
    ∧ (uio_read dev (uio_write dev mem o v).mem o).ret = some 1
    ∧ (uio_read dev (uio_write dev mem o v).mem o).data = some v := by
  have h : offset_rejected dev o = false := offset_rejected_of_lt dev o hlen h0 h1
  simp [uio_write, uio_read, h, hacc, accessible_store32, load32_store32 _ _ _ hv]

/-- C1 (defect): with `region_length = 0` the offset `0` satisfies
`o >= region_length`, yet `uio_write` and `uio_read` accept it: neither
returns `UIO_ACCESS_VIOLATION` and both access the four bytes at `addr`.  When
those bytes are mapped both calls return 1, the write stores to them and the
read stores a value into `*data`; when they are not, the access faults. -/
theorem uio_access_zero_length_accepted (dev : uio_dev) (mem : Mem) (v : Nat) :
    ((0 : Int) ≥ (({ dev with len := 0 } : uio_dev).len : Int))
    ∧ (uio_write { dev with len := 0 } mem 0 v).ret ≠ some UIO_ACCESS_VIOLATION
    ∧ (uio_write { dev with len := 0 } mem 0 v).touched = word_bytes dev.addr
    ∧ (uio_read { dev with len := 0 } mem 0).ret ≠ some UIO_ACCESS_VIOLATION
    ∧ (uio_read { dev with len := 0 } mem 0).touched = word_bytes dev.addr
    ∧ (accessible mem dev.addr = true →
        (uio_write { dev with len := 0 } mem 0 v).ret = some 1
        ∧ (uio_write { dev with len := 0 } mem 0 v).mem.byte dev.addr = v % 256
        ∧ (uio_read { dev with len := 0 } mem 0).ret = some 1
        ∧ (uio_read { dev with len := 0 } mem 0).data = some (load32 mem dev.addr))
    ∧ (accessible mem dev.addr = false →
        (uio_write { dev with len := 0 } mem 0 v).ret = none
        ∧ (uio_read { dev with len := 0 } mem 0).ret = none) := by
  have h : offset_rejected { dev with len := 0 } 0 = false :=
    offset_rejected_len_zero _ 0 rfl (le_refl 0)
  cases hacc : accessible mem dev.addr <;>
    simp [uio_write, uio_read, h, hacc, store32, store8, UIO_ACCESS_VIOLATION,
      UIO_MASK_IRQ_FAILED, UIO_UMASK_IRQ_FAILED]

/-- C2 (as stated, refuted): the handle over the mapped region of 4096 bytes
at address 65536 and the offset 4095 satisfy `0 <= o < region_length`, yet
`uio_write` does not return 1: the guard accepts the offset, the 4-byte store
reaches the bytes at indices 4096..4098, which are outside the mapped region,
and the access faults.  The same holds for `uio_read`, which stores nothing
into `*data`. -/
theorem uio_write_read_fails_at_region_end :
    region_mapped dev_page mem_page
    ∧ (0 : Int) ≤ 4095 ∧ (4095 : Int) < (dev_page.len : Int)
    ∧ (uio_write dev_page mem_page 4095 3405705229).ret = none
    ∧ (uio_write dev_page mem_page 4095 3405705229).ret ≠ some 1
    ∧ (uio_write dev_page mem_page 4095 3405705229).touched
        = [65536 + 4095, 65536 + 4096, 65536 + 4097, 65536 + 4098]
    ∧ mem_page.valid (65536 + 4096) = false
    ∧ (uio_read dev_page (uio_write dev_page mem_page 4095 3405705229).mem 4095).ret = none
    ∧ (uio_read dev_page (uio_write dev_page mem_page 4095 3405705229).mem 4095).data
        = none := by
  refine ⟨?_, by decide, by decide, by decide, by decide, by decide, by decide, by decide,
    by decide⟩
  intro a ha
  simp only [in_region, dev_page] at ha
  simp only [mem_page, decide_eq_true_eq]
  omega

/-- C2 (amended): for every handle over a mapped region of `region_length`
bytes, every offset `o` with `0 <= o` and `o + 4 <= region_length` and every
32-bit value `v`, `uio_write` returns 1 and a following `uio_read` at the same
offset returns 1 and stores `v` into `*data`; both accesses stay inside the
region. -/
theorem uio_write_read_round_trip (dev : uio_dev) (mem : Mem) (o : Int) (v : Nat)
    (hm : region_mapped dev mem) (hlen : dev.len ≤ SIZE_MAX) (h0 : 0 ≤ o)
    (h4 : o + 4 ≤ (dev.len : Int)) (hv : v ≤ UINT32_MAX) :
    (uio_write dev mem o v).ret = some 1
    ∧ (uio_read dev (uio_write dev mem o v).mem o).ret = some 1
    ∧ (uio_read dev (uio_write dev mem o v).mem o).data = some v
    ∧ (∀ a ∈ (uio_write dev mem o v).touched, in_region dev a)
    ∧ (∀ a ∈ (uio_read dev (uio_write dev mem o v).mem o).touched, in_region dev a) := by
  have hacc := accessible_of_region dev mem o hm h0 h4
  have h : offset_rejected dev o = false := offset_rejected_of_lt dev o hlen h0 (by omega)
  have hin : ∀ a ∈ word_bytes (dev.addr + o.toNat), in_region dev a := by
    intro a ha
    simp only [word_bytes, List.mem_cons, List.mem_singleton, List.not_mem_nil, or_false] at ha
    unfold in_region
    omega
  have rt := uio_write_read_of_accessible dev mem o v hlen h0 (by omega) hacc hv
  refine ⟨rt.1, rt.2.1, rt.2.2, ?_, ?_⟩
  · simpa [uio_write, h, hacc] using hin
  · simpa [uio_write, uio_read, h, hacc, accessible_store32] using hin

/-- C2 (amended) at a concrete input: the last word, offset 4092, of the
mapped 4096-byte region at address 65536, value `0xCAFEF00D`. -/
theorem uio_write_read_round_trip_witness :
    region_mapped dev_page mem_page
    ∧ (uio_write dev_page mem_page 4092 3405705229).ret = some 1
    ∧ (uio_read dev_page (uio_write dev_page mem_page 4092 3405705229).mem 4092).ret = some 1
    ∧ (uio_read dev_page (uio_write dev_page mem_page 4092 3405705229).mem 4092).data
        = some 3405705229 :=
  have hm : region_mapped dev_page mem_page := by
    intro a ha
    simp only [in_region, dev_page] at ha
    simp only [mem_page, decide_eq_true_eq]
    omega
  have t := uio_write_read_round_trip dev_page mem_page 4092 3405705229 hm (by decide)
    (by decide) (by decide) (by decide)
  ⟨hm, t.1, t.2.1, t.2.2.1⟩

/-- C9 (as stated, refuted): the handle left by a `uio_init` that fails on
opening the offset descriptor, after the size `0x1000` has been recorded in
`len`, has `mapped = 0`; `uio_write` and `uio_read` at offset 0 through it
access the four bytes at `addr`.  In a memory where those bytes are mapped
both calls return 1 and the write changes the byte at `addr`; in a memory
where they are not, the attempted access faults. -/
theorem uio_access_unmapped_handle_touches_memory :
    (uio_init { env_ok with
        fopen := fun path =>
          if path = "/sys/class/uio/uio0/maps/map0/size" then some (Scan.item 4096) else none }
      dev_zero 0).ret = UIO_FD_OPEN_ERROR
    ∧ (uio_init { env_ok with
        fopen := fun path =>
          if path = "/sys/class/uio/uio0/maps/map0/size" then some (Scan.item 4096) else none }
      dev_zero 0).dev = { fd := 3, addr := 0, len := 4096, mapped := 0,
                           pfd := some { fd := 0, events := POLLIN, revents := 0 } }
    ∧ (uio_write { fd := 3, addr := 0, len := 4096, mapped := 0,
                   pfd := some { fd := 0, events := POLLIN, revents := 0 } }
        mem_flat 0 255).ret = some 1
    ∧ (uio_write { fd := 3, addr := 0, len := 4096, mapped := 0,
                   pfd := some { fd := 0, events := POLLIN, revents := 0 } }
        mem_flat 0 255).touched = [0, 1, 2, 3]
    ∧ (uio_write { fd := 3, addr := 0, len := 4096, mapped := 0,
                   pfd := some { fd := 0, events := POLLIN, revents := 0 } }
        mem_flat 0 255).mem.byte 0 = 255
    ∧ (uio_read { fd := 3, addr := 0, len := 4096, mapped := 0,
                  pfd := some { fd := 0, events := POLLIN, revents := 0 } }
        mem_flat 0).ret = some 1
    ∧ (uio_read { fd := 3, addr := 0, len := 4096, mapped := 0,
                  pfd := some { fd := 0, events := POLLIN, revents := 0 } }
        mem_flat 0).touched = [0, 1, 2, 3]
    ∧ (uio_write { fd := 3, addr := 0, len := 4096, mapped := 0,
                   pfd := some { fd := 0, events := POLLIN, revents := 0 } }
        mem_page 0 255).ret = none
    ∧ (uio_write { fd := 3, addr := 0, len := 4096, mapped := 0,
                   pfd := some { fd := 0, events := POLLIN, revents := 0 } }
        mem_page 0 255).touched = [0, 1, 2, 3]
    ∧ (uio_read { fd := 3, addr := 0, len := 4096, mapped := 0,
                  pfd := some { fd := 0, events := POLLIN, revents := 0 } }
        mem_page 0).touched = [0, 1, 2, 3] := by
  refine ⟨by decide, by decide, by decide, by decide, by decide, by decide, by decide,
    by decide, by decide, by decide⟩

/-- C9 (amended): `uio_write` and `uio_read` do not consult `mapped`.  Through
a handle with `mapped = 0` they perform no load or store whenever the bounds
check rejects the offset, that is for `o < 0` and, when `region_length >= 1`,
for `o >= region_length`: they return `UIO_ACCESS_VIOLATION`, touch no byte,
leave the memory as it is and store nothing into `*data`.  An offset with
`0 <= o < region_length` is accepted and the four bytes at `addr + o` are
accessed, although the handle is not mapped: the call returns 1 when those
bytes are mapped and faults when they are not. -/
theorem uio_access_unmapped (dev : uio_dev) (mem : Mem) (o : Int) (v : Nat)
    (_hm : dev.mapped = 0) (hlen : dev.len ≤ SIZE_MAX) (hmax : o ≤ INT_MAX) :
    ((o < 0 ∨ (1 ≤ dev.len ∧ (dev.len : Int) ≤ o)) →
      (uio_write dev mem o v).ret = some UIO_ACCESS_VIOLATION
      ∧ (uio_write dev mem o v).touched = []
      ∧ (uio_write dev mem o v).mem = mem
      ∧ (uio_read dev mem o).ret = some UIO_ACCESS_VIOLATION
      ∧ (uio_read dev mem o).touched = []
      ∧ (uio_read dev mem o).data = none)
    ∧ ((0 ≤ o ∧ o < (dev.len : Int)) →
      (uio_write dev mem o v).touched = word_bytes (dev.addr + o.toNat)
      ∧ (uio_read dev mem o).touched = word_bytes (dev.addr + o.toNat)
      ∧ (uio_write dev mem o v).ret
          = (if accessible mem (dev.addr + o.toNat) then some 1 else none)
      ∧ (uio_read dev mem o).ret
          = (if accessible mem (dev.addr + o.toNat) then some 1 else none)) := by
  refine ⟨fun h => uio_access_rejected dev mem o v hlen hmax h, fun h => ?_⟩
  have hr : offset_rejected dev o = false := offset_rejected_of_lt dev o hlen h.1 h.2
  have t := uio_access_accepted dev mem o v hr
  exact ⟨t.1, t.2.1, t.2.2.1, t.2.2.2.1⟩

/-- C9 (amended) at a concrete input: offsets 4096 and 16 through the unmapped
handle with `len = 4096` at address 65536. -/
theorem uio_access_unmapped_witness :
    (uio_write { dev_page with mapped := 0 } mem_page 4096 7).ret = some UIO_ACCESS_VIOLATION
    ∧ (uio_write { dev_page with mapped := 0 } mem_page 4096 7).touched = []
    ∧ (uio_read { dev_page with mapped := 0 } mem_page 4096).touched = []
    ∧ (uio_read { dev_page with mapped := 0 } mem_page 4096).data = none
    ∧ (uio_write { dev_page with mapped := 0 } mem_page 16 7).ret = some 1
    ∧ (uio_write { dev_page with mapped := 0 } mem_page 16 7).touched
        = word_bytes (65536 + 16) :=
  have t := (uio_access_unmapped { dev_page with mapped := 0 } mem_page 4096 7 rfl (by decide)
    (by decide)).1 (Or.inr ⟨by decide, by decide⟩)
  have u := (uio_access_unmapped { dev_page with mapped := 0 } mem_page 16 7 rfl (by decide)
    (by decide)).2 ⟨by decide, by decide⟩
  ⟨t.1, t.2.1, t.2.2.2.2.1, t.2.2.2.2.2, u.2.2.1.trans (by decide), u.1⟩

/-- C10 (defect): the handle produced by a successful `uio_init` has
`len = 4096`; `uio_write` and `uio_read` accept offset 4095 through it
although `4095 + 4 > 4096`, and the access touches the bytes at indices 4096,
4097 and 4098, which are outside the region.  In a memory where those bytes
happen to be mapped both calls return 1; in a memory where exactly the region
is mapped the access faults. -/
theorem uio_access_last_offsets_overrun :
    (uio_init env_ok dev_zero 0).ret = 1
    ∧ (uio_init env_ok dev_zero 0).dev.len = 4096
    ∧ (uio_init env_ok dev_zero 0).dev.addr = 65536
    ∧ (uio_write (uio_init env_ok dev_zero 0).dev mem_flat 4095 1).ret = some 1
    ∧ (uio_read (uio_init env_ok dev_zero 0).dev mem_flat 4095).ret = some 1
    ∧ ¬ ((4095 : Int) + 4 ≤ ((uio_init env_ok dev_zero 0).dev.len : Int))
    ∧ (uio_write (uio_init env_ok dev_zero 0).dev mem_flat 4095 1).touched
        = [65536 + 4095, 65536 + 4096, 65536 + 4097, 65536 + 4098]
    ∧ (uio_read (uio_init env_ok dev_zero 0).dev mem_flat 4095).touched
        = [65536 + 4095, 65536 + 4096, 65536 + 4097, 65536 + 4098]
    ∧ ¬ in_region (uio_init env_ok dev_zero 0).dev (65536 + 4096)
    ∧ (uio_write (uio_init env_ok dev_zero 0).dev mem_page 4095 1).ret = none
    ∧ (uio_read (uio_init env_ok dev_zero 0).dev mem_page 4095).ret = none
    ∧ (uio_write (uio_init env_ok dev_zero 0).dev mem_page 4095 1).touched
        = [65536 + 4095, 65536 + 4096, 65536 + 4097, 65536 + 4098]
    ∧ (uio_read (uio_init env_ok dev_zero 0).dev mem_page 4095).touched
        = [65536 + 4095, 65536 + 4096, 65536 + 4097, 65536 + 4098] := by
  refine ⟨by decide, by decide, by decide, by decide, by decide, by decide, by decide,
    by decide, by decide, by decide, by decide, by decide, by decide⟩

/-! ## Initialisation -/

/-- C3 (as stated, refuted): for `uio_id = -1`, when the allocation fails
`uio_init` returns `-1`, not `UIO_ID_NEGATIVE`; and when the allocation
succeeds the call has made the allocation before returning
`UIO_ID_NEGATIVE`. -/
theorem uio_init_negative_id_after_allocation :
    (uio_init env_no_memory dev_zero (-1)).ret = -1
    ∧ (uio_init env_no_memory dev_zero (-1)).ret ≠ UIO_ID_NEGATIVE
    ∧ (uio_init env_ok dev_zero (-1)).ret = UIO_ID_NEGATIVE
    ∧ (uio_init env_ok dev_zero (-1)).trace
        = [Event.malloc (some { fd := 0, events := 0, revents := 0 })]
    ∧ (uio_init env_ok dev_zero (-1)).dev.pfd
        = some { fd := 0, events := POLLIN, revents := 0 } := by
  refine ⟨by decide, by decide, by decide, by decide, by decide⟩

/-- C3 (amended): for every `uio_id < 0` the only call `uio_init` makes is the
allocation of the wait handle; it returns `UIO_ID_NEGATIVE` when the
allocation succeeds and `-1` when it fails, and in both cases makes no open
of the device file, no descriptor open or read, and no `mmap`. -/
theorem uio_init_negative_id (env : Env) (dev : uio_dev) (uio_id : Int) (h : uio_id < 0) :
    (∀ blk, env.malloc = some blk → (uio_init env dev uio_id).ret = UIO_ID_NEGATIVE)
    ∧ (env.malloc = none → (uio_init env dev uio_id).ret = -1)
    ∧ (uio_init env dev uio_id).trace = [Event.malloc env.malloc] := by
  refine ⟨?_, ?_, ?_⟩
  · intro blk hb
    simp [uio_init, hb, h]
  · intro hb
    simp [uio_init, hb]
  · cases hb : env.malloc <;> simp [uio_init, hb, h]

/-- C3 (amended) at a concrete input: `uio_id = -7`, allocation succeeding. -/
theorem uio_init_negative_id_witness :
    (∀ blk, env_ok.malloc = some blk → (uio_init env_ok dev_zero (-7)).ret = UIO_ID_NEGATIVE)
    ∧ (env_ok.malloc = none → (uio_init env_ok dev_zero (-7)).ret = -1)
    ∧ (uio_init env_ok dev_zero (-7)).trace = [Event.malloc env_ok.malloc] :=
  uio_init_negative_id env_ok dev_zero (-7) (by decide)

/-- C4: in `uio_init` with `uio_id >= 0`, the allocation and the device open
succeeding and the size descriptor opened and parsed to `size`, the call
returns `UIO_MMAP_SIZE_ERROR` exactly when `size < 0` or `size > 65536`; when
`size` is in range and the offset descriptor is opened and parsed to `offset`,
the call returns `UIO_MMAP_OFFSET_ERROR` exactly when `offset < 0` or
`offset > 65535`.  In both rejections `mmap` is not called and `mapped` is 0. -/
theorem uio_init_range_checks (env : Env) (dev : uio_dev) (uio_id : Int) (blk : pollfd)
    (size : Int) (hid : 0 ≤ uio_id) (hm : env.malloc = some blk)
    (hfd : 0 ≤ env.open_ (snprintf 256 "/dev/uio" uio_id "").text)
    (hs : env.fopen (snprintf 256 "/sys/class/uio/uio" uio_id "/maps/map0/size").text
            = some (Scan.item size)) :
    ((uio_init env dev uio_id).ret = UIO_MMAP_SIZE_ERROR ↔ (size < 0 ∨ size > 65536))
    ∧ ((size < 0 ∨ size > 65536) →
        (uio_init env dev uio_id).dev.mapped = 0
        ∧ ∀ e ∈ (uio_init env dev uio_id).trace, e.is_mmap = false)
    ∧ (0 ≤ size → size ≤ 65536 → ∀ offset : Int,
        env.fopen (snprintf 256 "/sys/class/uio/uio" uio_id "/maps/map0/offset").text
            = some (Scan.item offset) →
        ((uio_init env dev uio_id).ret = UIO_MMAP_OFFSET_ERROR
            ↔ (offset < 0 ∨ offset > 65535))
        ∧ ((offset < 0 ∨ offset > 65535) →
            (uio_init env dev uio_id).dev.mapped = 0
            ∧ ∀ e ∈ (uio_init env dev uio_id).trace, e.is_mmap = false)) := by
  have hid' : ¬ uio_id < 0 := not_lt.mpr hid
  have hfd' : ¬ env.open_ (snprintf 256 "/dev/uio" uio_id "").text < 0 := not_lt.mpr hfd
  have n1 := snprintf_ret_nonneg 256 "/dev/uio" uio_id ""
  have n2 := snprintf_ret_nonneg 256 "/sys/class/uio/uio" uio_id "/maps/map0/size"
  have n3 := snprintf_ret_nonneg 256 "/sys/class/uio/uio" uio_id "/maps/map0/offset"
  by_cases hsz : size < 0 ∨ size > 65536
  · have e : uio_init env dev uio_id =
        { ret := UIO_MMAP_SIZE_ERROR
          dev := { dev with pfd := some { blk with events := POLLIN }, mapped := 0,
                            fd := env.open_ (snprintf 256 "/dev/uio" uio_id "").text }
          trace := [Event.malloc (some blk),
            Event.open_ (snprintf 256 "/dev/uio" uio_id "").text
              (env.open_ (snprintf 256 "/dev/uio" uio_id "").text),
            Event.fopen (snprintf 256 "/sys/class/uio/uio" uio_id "/maps/map0/size").text true,
            Event.fscanf 1, Event.fclose] } := by
      simp [uio_init, hm, hid', hfd', n1, n2, hs, Scan.ret, Scan.assign, hsz]
    rw [e]
    refine ⟨by simp [hsz], fun _ => ⟨rfl, by simp [Event.is_mmap]⟩, ?_⟩
    intro h0 h1
    omega
  · have hsz0 : 0 ≤ size := by omega
    have hsz1 : size ≤ 65536 := by omega
    refine ⟨?_, fun h => absurd h hsz, ?_⟩
    · simp only [hsz, iff_false]
      simp only [uio_init, hm, hid', hfd', n1, n2, n3, hs, Scan.ret, Scan.assign]
      cases ho : env.fopen (snprintf 256 "/sys/class/uio/uio" uio_id "/maps/map0/offset").text
        with
      | none => simp [hsz, UIO_ID_NEGATIVE, UIO_DEV_NULL, UIO_FNAME_ERROR, UIO_FD_OPEN_ERROR, UIO_FILE_READ_ERROR,
          UIO_MMAP_SIZE_ERROR, UIO_MMAP_OFFSET_ERROR, UIO_MMAP_FAILED, UIO_ACCESS_VIOLATION,
          UIO_MASK_IRQ_FAILED, UIO_UMASK_IRQ_FAILED]
      | some sc2 =>
        simp only [hsz]
        simp only [if_false, if_neg (show ¬ ((1 : Int) < 0) by decide)]
        split_ifs <;> simp [Scan.ret, Scan.assign, UIO_ID_NEGATIVE, UIO_DEV_NULL, UIO_FNAME_ERROR, UIO_FD_OPEN_ERROR, UIO_FILE_READ_ERROR,
          UIO_MMAP_SIZE_ERROR, UIO_MMAP_OFFSET_ERROR, UIO_MMAP_FAILED, UIO_ACCESS_VIOLATION,
          UIO_MASK_IRQ_FAILED, UIO_UMASK_IRQ_FAILED]
    · intro _ _ offset ho
      by_cases hof : offset < 0 ∨ offset > 65535
      · have e : (uio_init env dev uio_id).ret = UIO_MMAP_OFFSET_ERROR
            ∧ (uio_init env dev uio_id).dev.mapped = 0
            ∧ ∀ e ∈ (uio_init env dev uio_id).trace, e.is_mmap = false := by
          simp [uio_init, hm, hid', hfd', n1, n2, n3, hs, ho, Scan.ret, Scan.assign, hsz, hof,
            Event.is_mmap]
        exact ⟨by simp [e.1, hof], fun _ => e.2⟩
      · refine ⟨?_, fun h => absurd h hof⟩
        simp only [hof, iff_false]
        simp only [uio_init, hm, hid', hfd', n1, n2, n3, hs, ho, Scan.ret, Scan.assign, hsz, hof]
        simp only [if_false, if_neg (show ¬ ((1 : Int) < 0) by decide)]
        split_ifs <;> simp [Scan.ret, Scan.assign, UIO_ID_NEGATIVE, UIO_DEV_NULL, UIO_FNAME_ERROR, UIO_FD_OPEN_ERROR, UIO_FILE_READ_ERROR,
          UIO_MMAP_SIZE_ERROR, UIO_MMAP_OFFSET_ERROR, UIO_MMAP_FAILED, UIO_ACCESS_VIOLATION,
          UIO_MASK_IRQ_FAILED, UIO_UMASK_IRQ_FAILED]

/-- C4 at a concrete input: device 0 whose size descriptor reports `0x20000`
is rejected with `UIO_MMAP_SIZE_ERROR`, unmapped and without a call of
`mmap`. -/
theorem uio_init_range_checks_witness :
    (0 : Int) ≤ 0
    ∧ env_big_size.malloc = some { fd := 0, events := 0, revents := 0 }
    ∧ 0 ≤ env_big_size.open_ (snprintf 256 "/dev/uio" 0 "").text
    ∧ env_big_size.fopen (snprintf 256 "/sys/class/uio/uio" 0 "/maps/map0/size").text
        = some (Scan.item 131072)
    ∧ (uio_init env_big_size dev_zero 0).ret = UIO_MMAP_SIZE_ERROR
    ∧ (uio_init env_big_size dev_zero 0).dev.mapped = 0
    ∧ ∀ e ∈ (uio_init env_big_size dev_zero 0).trace, e.is_mmap = false :=
  have t := uio_init_range_checks env_big_size dev_zero 0 { fd := 0, events := 0, revents := 0 }
    131072 (by decide) rfl (by decide) (by decide)
  ⟨by decide, rfl, by decide, by decide, t.1.mpr (Or.inr (by decide)),
    (t.2.1 (Or.inr (by decide))).1, (t.2.1 (Or.inr (by decide))).2⟩

/-- C8: when every step of `uio_init` succeeds (`uio_id >= 0`, allocation,
device open, both descriptors parsed with `0 <= size <= 65536` and
`0 <= offset <= 65535`, `mmap` not `MAP_FAILED`), the call returns 1 and
leaves the handle with `mapped = 1`, `addr` the result of `mmap`, the wait
handle bound to the connection descriptor with `events = POLLIN`, and
`len = 4096` whatever the size read from the descriptor. -/
theorem uio_init_success (env : Env) (dev : uio_dev) (uio_id : Int) (blk : pollfd)
    (size offset : Int) (hid : 0 ≤ uio_id) (hm : env.malloc = some blk)
    (hfd : 0 ≤ env.open_ (snprintf 256 "/dev/uio" uio_id "").text)
    (hs : env.fopen (snprintf 256 "/sys/class/uio/uio" uio_id "/maps/map0/size").text
            = some (Scan.item size))
    (hs0 : 0 ≤ size) (hs1 : size ≤ 65536)
    (ho : env.fopen (snprintf 256 "/sys/class/uio/uio" uio_id "/maps/map0/offset").text
            = some (Scan.item offset))
    (ho0 : 0 ≤ offset) (ho1 : offset ≤ 65535)
    (hmap : env.mmap (toSizeT size) (env.open_ (snprintf 256 "/dev/uio" uio_id "").text) offset
            ≠ MAP_FAILED) :
    (uio_init env dev uio_id).ret = 1
    ∧ 0 < (uio_init env dev uio_id).ret
    ∧ (uio_init env dev uio_id).dev.mapped = 1
    ∧ (uio_init env dev uio_id).dev.addr
        = env.mmap (toSizeT size) (env.open_ (snprintf 256 "/dev/uio" uio_id "").text) offset
    ∧ (uio_init env dev uio_id).dev.fd = env.open_ (snprintf 256 "/dev/uio" uio_id "").text
    ∧ (uio_init env dev uio_id).dev.pfd
        = some { fd := env.open_ (snprintf 256 "/dev/uio" uio_id "").text
                 events := POLLIN
                 revents := blk.revents }
    ∧ (uio_init env dev uio_id).dev.len = 4096
    ∧ toSizeT size = size.toNat := by
  have hid' : ¬ uio_id < 0 := not_lt.mpr hid
  have hfd' : ¬ env.open_ (snprintf 256 "/dev/uio" uio_id "").text < 0 := not_lt.mpr hfd
  have n1 := snprintf_ret_nonneg 256 "/dev/uio" uio_id ""
  have n2 := snprintf_ret_nonneg 256 "/sys/class/uio/uio" uio_id "/maps/map0/size"
  have n3 := snprintf_ret_nonneg 256 "/sys/class/uio/uio" uio_id "/maps/map0/offset"
  have hsz : ¬ (size < 0 ∨ size > 65536) := by omega
  have hof : ¬ (offset < 0 ∨ offset > 65535) := by omega
  have hcv : toSizeT size = size.toNat :=
    toSizeT_of_nonneg size hs0 (by simp only [SIZE_MAX, SIZE_BITS]; norm_num; omega)
  have hmap' := hmap
  rw [hcv] at hmap'
  simp [uio_init, hm, hid', hfd', n1, n2, n3, hs, ho, Scan.ret, Scan.assign, hsz, hof, hmap',
    hcv]

/-- C8 at a concrete input: device 0 with size `0x1000`, offset `0x0` and a
mapping at address 65536. -/
theorem uio_init_success_witness :
    (uio_init env_ok dev_zero 0).ret = 1
    ∧ 0 < (uio_init env_ok dev_zero 0).ret
    ∧ (uio_init env_ok dev_zero 0).dev.mapped = 1
    ∧ (uio_init env_ok dev_zero 0).dev.addr
        = env_ok.mmap (toSizeT 4096) (env_ok.open_ (snprintf 256 "/dev/uio" 0 "").text) 0
    ∧ (uio_init env_ok dev_zero 0).dev.fd = env_ok.open_ (snprintf 256 "/dev/uio" 0 "").text
    ∧ (uio_init env_ok dev_zero 0).dev.pfd
        = some { fd := env_ok.open_ (snprintf 256 "/dev/uio" 0 "").text
                 events := POLLIN
                 revents := 0 }
    ∧ (uio_init env_ok dev_zero 0).dev.len = 4096
    ∧ toSizeT 4096 = (4096 : Int).toNat :=
  uio_init_success env_ok dev_zero 0 { fd := 0, events := 0, revents := 0 } 4096 0
    (by decide) rfl (by decide) (by decide) (by decide) (by decide) (by decide) (by decide)
    (by decide) (by decide)

/-- End of input on the size descriptor is reported: `uio_init` returns
`UIO_FILE_READ_ERROR` without a call of `mmap`. -/
theorem uio_init_size_eof_reported (env : Env) (dev : uio_dev) (uio_id : Int) (blk : pollfd)
    (hid : 0 ≤ uio_id) (hm : env.malloc = some blk)
    (hfd : 0 ≤ env.open_ (snprintf 256 "/dev/uio" uio_id "").text)
    (hs : env.fopen (snprintf 256 "/sys/class/uio/uio" uio_id "/maps/map0/size").text
            = some Scan.eof) :
    (uio_init env dev uio_id).ret = UIO_FILE_READ_ERROR
    ∧ ∀ e ∈ (uio_init env dev uio_id).trace, e.is_mmap = false := by
  have hid' : ¬ uio_id < 0 := not_lt.mpr hid
  have hfd' : ¬ env.open_ (snprintf 256 "/dev/uio" uio_id "").text < 0 := not_lt.mpr hfd
  have n1 := snprintf_ret_nonneg 256 "/dev/uio" uio_id ""
  have n2 := snprintf_ret_nonneg 256 "/sys/class/uio/uio" uio_id "/maps/map0/size"
  simp [uio_init, hm, hid', hfd', n1, n2, hs, Scan.ret, EOF, Event.is_mmap]

/-- C7 (defect): a descriptor whose text does not match the format makes the
formatted read return 0, which the test `ret < 0` lets through.  With such an
offset descriptor `uio_init` does not return `UIO_FILE_READ_ERROR`: it goes on
to the range check and to `mmap` with the initial `offset = 0` and returns 1.
With such a size descriptor it goes on with the indeterminate value of `size`
(256 here), records it in the `mmap` length, and returns 1. -/
theorem uio_init_match_failure_not_reported :
    (uio_init env_offset_nomatch dev_zero 0).ret = 1
    ∧ (uio_init env_offset_nomatch dev_zero 0).ret ≠ UIO_FILE_READ_ERROR
    ∧ (uio_init env_offset_nomatch dev_zero 0).trace
        = [Event.malloc (some { fd := 0, events := 0, revents := 0 }),
           Event.open_ "/dev/uio0" 3,
           Event.fopen "/sys/class/uio/uio0/maps/map0/size" true,
           Event.fscanf 1, Event.fclose,
           Event.fopen "/sys/class/uio/uio0/maps/map0/offset" true,
           Event.fscanf 0, Event.fclose,
           Event.mmap 4096 3 0 65536]
    ∧ (uio_init env_size_nomatch dev_zero 0).ret = 1
    ∧ (uio_init env_size_nomatch dev_zero 0).ret ≠ UIO_FILE_READ_ERROR
    ∧ (uio_init env_size_nomatch dev_zero 0).trace
        = [Event.malloc (some { fd := 0, events := 0, revents := 0 }),
           Event.open_ "/dev/uio0" 3,
           Event.fopen "/sys/class/uio/uio0/maps/map0/size" true,
           Event.fscanf 0, Event.fclose,
           Event.fopen "/sys/class/uio/uio0/maps/map0/offset" true,
           Event.fscanf 1, Event.fclose,
           Event.mmap 256 3 0 65536] := by
  refine ⟨by decide, by decide, by decide, by decide, by decide, by decide⟩

/-- C6 (as stated, refuted): when the device file cannot be opened,
`uio_init` returns `UIO_FD_OPEN_ERROR` with the wait-handle block still
allocated and referenced by `pfd` (no `free` was called); when the offset
descriptor reports an out-of-range value it returns `UIO_MMAP_OFFSET_ERROR`
with the connection still open (no `close` was called); and for a negative
`uio_id` the field `mapped` keeps the value it had before the call. -/
theorem uio_init_error_keeps_resources :
    (uio_init env_no_device dev_zero 0).ret = UIO_FD_OPEN_ERROR
    ∧ (uio_init env_no_device dev_zero 0).trace
        = [Event.malloc (some { fd := 0, events := 0, revents := 0 }),
           Event.open_ "/dev/uio0" (-1)]
    ∧ (uio_init env_no_device dev_zero 0).dev.pfd
        = some { fd := 0, events := POLLIN, revents := 0 }
    ∧ (uio_init { env_ok with fopen := fun _ => some (Scan.item 65536) } dev_zero 0).ret
        = UIO_MMAP_OFFSET_ERROR
    ∧ (uio_init { env_ok with fopen := fun _ => some (Scan.item 65536) } dev_zero 0).trace
        = [Event.malloc (some { fd := 0, events := 0, revents := 0 }),
           Event.open_ "/dev/uio0" 3,
           Event.fopen "/sys/class/uio/uio0/maps/map0/size" true,
           Event.fscanf 1, Event.fclose,
           Event.fopen "/sys/class/uio/uio0/maps/map0/offset" true,
           Event.fscanf 1, Event.fclose]
    ∧ (uio_init env_ok dev_page (-1)).ret = UIO_ID_NEGATIVE
    ∧ (uio_init env_ok dev_page (-1)).dev.mapped = 1 := by
  refine ⟨by decide, by decide, by decide, by decide, by decide, by decide, by decide⟩

/-- C6 (amended): whenever `uio_init` returns an error (a non-positive
result), no mapping has been made (`mmap` was not called or returned
`MAP_FAILED`), and on every error other than the allocation failure `-1` and
`UIO_ID_NEGATIVE` the field `mapped` is 0.  The call itself releases nothing:
it makes no `free`, `close` or `munmap`; the block allocated in the call is
still referenced by `pfd`, and a connection opened in the call is recorded in
`fd`. -/
theorem uio_init_error_state (env : Env) (dev : uio_dev) (uio_id : Int)
    (h : (uio_init env dev uio_id).ret ≤ 0) :
    (∀ e ∈ (uio_init env dev uio_id).trace, e.is_mapping = false)
    ∧ ((uio_init env dev uio_id).ret ≠ -1 → (uio_init env dev uio_id).ret ≠ UIO_ID_NEGATIVE →
        (uio_init env dev uio_id).dev.mapped = 0)
    ∧ (∀ e ∈ (uio_init env dev uio_id).trace, e.is_release = false)
    ∧ ((uio_init env dev uio_id).ret ≠ -1 → ∃ blk, env.malloc = some blk
        ∧ Event.malloc (some blk) ∈ (uio_init env dev uio_id).trace
        ∧ (uio_init env dev uio_id).dev.pfd = some { blk with events := POLLIN })
    ∧ (∀ path fd, Event.open_ path fd ∈ (uio_init env dev uio_id).trace →
        (uio_init env dev uio_id).dev.fd = fd) := by
  have n1 := snprintf_ret_nonneg 256 "/dev/uio" uio_id ""
  have n2 := snprintf_ret_nonneg 256 "/sys/class/uio/uio" uio_id "/maps/map0/size"
  have n3 := snprintf_ret_nonneg 256 "/sys/class/uio/uio" uio_id "/maps/map0/offset"
  generalize hr : uio_init env dev uio_id = r at h ⊢
  unfold uio_init at hr
  dsimp only at hr
  repeat' (split at hr)
  all_goals
    subst hr
    simp_all [Event.is_mapping, Event.is_release, UIO_ID_NEGATIVE, UIO_DEV_NULL,
      UIO_FNAME_ERROR, UIO_FD_OPEN_ERROR, UIO_FILE_READ_ERROR, UIO_MMAP_SIZE_ERROR,
      UIO_MMAP_OFFSET_ERROR, UIO_MMAP_FAILED, UIO_ACCESS_VIOLATION,
      UIO_MASK_IRQ_FAILED, UIO_UMASK_IRQ_FAILED]

/-- C6 (amended) at a concrete input: device 0 whose device file cannot be
opened. -/
theorem uio_init_error_state_witness :
    (uio_init env_no_device dev_zero 0).ret ≤ 0
    ∧ (∀ e ∈ (uio_init env_no_device dev_zero 0).trace, e.is_mapping = false)
    ∧ (uio_init env_no_device dev_zero 0).dev.mapped = 0
    ∧ (∀ e ∈ (uio_init env_no_device dev_zero 0).trace, e.is_release = false) :=
  have t := uio_init_error_state env_no_device dev_zero 0 (by decide)
  ⟨by decide, t.1, t.2.1 (by decide) (by decide), t.2.2.1⟩

/-! ## Waiting for an interrupt -/

/-- For an interrupt-count word below `2 ^ 31 - 1`, a ready `poll` makes
`uio_wait_irq` return the count plus one, a strictly positive `int`. -/
theorem uio_wait_irq_small_count (env : WaitEnv) (dev : uio_dev) (tout_ms : Int)
    (hp : 1 ≤ env.poll dev.pfd tout_ms) (hc : env.read_info dev.fd < 2 ^ 31 - 1) :
    uio_wait_irq env dev tout_ms = (env.read_info dev.fd : Int) + 1
    ∧ 0 < uio_wait_irq env dev tout_ms := by
  have e : toInt32 (toUInt32 ((env.read_info dev.fd : Int) + 1))
      = (env.read_info dev.fd : Int) + 1 := by
    simp only [toInt32, toUInt32]
    norm_num at hc ⊢
    split_ifs <;> omega
  have hr : uio_wait_irq env dev tout_ms
      = toInt32 (toUInt32 ((env.read_info dev.fd : Int) + 1)) := by
    simp only [uio_wait_irq, ge_iff_le, hp, if_true]
  rw [hr, e]
  omega

/-- C5 (defect): with `poll` signalling readiness, an interrupt-count word of
`0xFFFFFFFF` makes `uio_wait_irq` return 0, the timed-out result; the word
`0xFFFFFFFE` makes it return `-1`, the wait-error result; and the word
`0x7FFFFFFF` makes it return a negative value.  None is strictly positive. -/
theorem uio_wait_irq_count_not_positive (dev : uio_dev) (tout_ms : Int) :
    uio_wait_irq { poll := fun _ _ => 1, read_info := fun _ => 4294967295 } dev tout_ms = 0
    ∧ uio_wait_irq { poll := fun _ _ => 0, read_info := fun _ => 0 } dev tout_ms = 0
    ∧ uio_wait_irq { poll := fun _ _ => 1, read_info := fun _ => 4294967294 } dev tout_ms = -1
    ∧ uio_wait_irq { poll := fun _ _ => -1, read_info := fun _ => 0 } dev tout_ms = -1
    ∧ uio_wait_irq { poll := fun _ _ => 1, read_info := fun _ => 2147483647 } dev tout_ms
        = -2147483648 := by
  refine ⟨?_, ?_, ?_, ?_, ?_⟩ <;> simp only [uio_wait_irq, toInt32, toUInt32] <;> norm_num <;>
    decide

end UioDev
